import Mathlib

/-!
Shallow embedding of the FitTrack state-store core: the validators
(src/utils/helpers.js), the start-up reader of the persistent key-value
cell (src/hooks/useLocalStorage.js), and the three mutation operations of
the application state store (src/context/AppContext.jsx).
-/

/-- JavaScript numbers as the store exercises them: NaN, the two
infinities, and finite values modelled as rationals. -/
inductive JNum : Type
  | nan : JNum
  | posInf : JNum
  | negInf : JNum
  | fin : ℚ → JNum
deriving DecidableEq, Repr

/-- The JS global `isNaN` on an already-numeric value. -/
def JNum.isNaN : JNum → Bool
  | .nan => true
  | _ => false

/-- The JS global `isFinite` on an already-numeric value. -/
def JNum.isFinite : JNum → Bool
  | .fin _ => true
  | _ => false

/-- JS `<` on numbers: any comparison involving NaN is false. -/
def JNum.jlt : JNum → JNum → Bool
  | .nan, _ => false
  | _, .nan => false
  | .posInf, _ => false
  | _, .posInf => true
  | .negInf, .negInf => false
  | .negInf, _ => true
  | _, .negInf => false
  | .fin a, .fin b => decide (a < b)

/-- JS `<=` on numbers: false when either side is NaN, otherwise the
negation of the reversed strict comparison. -/
def JNum.jle (a b : JNum) : Bool :=
  !a.isNaN && !b.isNaN && !(JNum.jlt b a)

/-- Integrality of a JS number, used to state the spec's
"coerced integer". -/
def JNum.isInteger : JNum → Bool
  | .fin q => decide (q.den = 1)
  | _ => false

/-- The fragment of JS values the store's entry points receive from the
forms: numbers, strings, booleans, null and undefined. -/
inductive JSValue : Type
  | num : JNum → JSValue
  | str : String → JSValue
  | bool : Bool → JSValue
  | null : JSValue
  | undefined : JSValue
deriving DecidableEq, Repr

/-- Digit list to natural number, helper for the decimal reader. -/
def digitsToNat (cs : List Char) : Nat :=
  cs.foldl (fun a c => a * 10 + (c.toNat - 48)) 0

/-- Decimal literal reader: an optional sign, then digits with an optional
fractional part (at least one digit overall). -/
def parseDecimal (cs : List Char) : Option ℚ :=
  let signed : Bool × List Char :=
    match cs with
    | '+' :: rest => (false, rest)
    | '-' :: rest => (true, rest)
    | rest => (false, rest)
  let neg := signed.1
  let body := signed.2
  let intPart := body.takeWhile Char.isDigit
  let afterInt := body.dropWhile Char.isDigit
  match afterInt with
  | [] =>
    if intPart.isEmpty then none
    else some (cond neg (-(digitsToNat intPart : ℚ)) (digitsToNat intPart : ℚ))
  | '.' :: fracPart =>
    if fracPart.all Char.isDigit && !(intPart.isEmpty && fracPart.isEmpty)
    then
      let mag : ℚ := (digitsToNat intPart : ℚ) +
        (digitsToNat fracPart : ℚ) / ((10 : ℚ) ^ fracPart.length)
      some (cond neg (-mag) mag)
    else none
  | _ => none

/-- Model of JS `String.prototype.trim`: drop leading and trailing
whitespace characters. -/
def jsTrim (s : String) : String :=
  ⟨((s.data.dropWhile Char.isWhitespace).reverse.dropWhile
      Char.isWhitespace).reverse⟩

/-- Model of the JS `Number()` conversion on strings: surrounding
whitespace is ignored, the empty string is 0, `Infinity` forms and plain
decimal literals are read, anything else is NaN (hexadecimal and exponent
literal forms are outside the model; no theorem below depends on them). -/
def strToNum (s : String) : JNum :=
  let t := jsTrim s
  if t = "" then .fin 0
  else if t = "Infinity" || t = "+Infinity" then .posInf
  else if t = "-Infinity" then .negInf
  else
    match parseDecimal t.toList with
    | some q => .fin q
    | none => .nan

/-- The JS `Number()` coercion on the embedded fragment. -/
def toNumber : JSValue → JNum
  | .num n => n
  | .null => .fin 0
  | .undefined => .nan
  | .bool true => .fin 1
  | .bool false => .fin 0
  | .str s => strToNum s

/-- JS strict equality `===` on the embedded fragment: NaN is unequal to
everything, values of different types are unequal. -/
def strictEq : JSValue → JSValue → Bool
  | .num .nan, _ => false
  | _, .num .nan => false
  | .num a, .num b => a == b
  | .str a, .str b => a == b
  | .bool a, .bool b => a == b
  | .null, .null => true
  | .undefined, .undefined => true
  | _, _ => false

/-- JS falsiness: the values on which `!v` is true. -/
def jsFalsy : JSValue → Bool
  | .null => true
  | .undefined => true
  | .bool b => !b
  | .num .nan => true
  | .num (.fin q) => decide (q = 0)
  | .num _ => false
  | .str s => s == ""

/-- `isValidPositiveNumber` from src/utils/helpers.js: true iff the value
is a number, not NaN, finite, and strictly greater than 0. -/
def isValidPositiveNumber : JSValue → Bool
  | .num n => !n.isNaN && n.isFinite && JNum.jlt (.fin 0) n
  | _ => false

/-- `isNonEmptyString` from src/utils/helpers.js: true iff the value is a
string whose trimmed form is non-empty. -/
def isNonEmptyString : JSValue → Bool
  | .str s => decide (0 < (jsTrim s).length)
  | _ => false

/-- A log entry `{id, name, calories}` as created by `handleAddLogItem`. -/
structure LogItem : Type where
  id : String
  name : String
  calories : JNum
deriving DecidableEq, Repr

/-- `handleSetGoal` from src/context/AppContext.jsx: coerces the candidate
with `Number`, keeps the previous goal when the coercion is NaN or `<= 0`,
and otherwise stores the coerced number. -/
def handleSetGoal (newGoal : JSValue) (goal : JSValue) : JSValue :=
  let goalNumber := toNumber newGoal
  if goalNumber.isNaN || goalNumber.jle (.fin 0) then goal
  else .num goalNumber

/-- `name?.trim()`: optional chaining yields `undefined` (here `none`) on
null or undefined, trims a string, and throws a TypeError on any other
value, since numbers and booleans have no `trim` method. -/
def jsOptTrim : JSValue → Except Unit (Option String)
  | .null => .ok none
  | .undefined => .ok none
  | .str s => .ok (some (jsTrim s))
  | _ => .error ()

/-- `handleAddLogItem` from src/context/AppContext.jsx, with the id
produced by `nanoid()` passed in as `freshId`. The `Except` layer records
the one place the JS body can throw: `name?.trim()` applied to a
non-string, non-nullish name. -/
def handleAddLogItem (name calories : JSValue) (freshId : String)
    (log : List LogItem) : Except Unit (List LogItem) := do
  let trimmedName ← jsOptTrim name
  let calorieNumber := toNumber calories
  match trimmedName with
  | none => return log
  | some s =>
    if s = "" then return log
    else if calorieNumber.isNaN || calorieNumber.jlt (.fin 0) then
      return log
    else return log ++ [⟨freshId, s, calorieNumber⟩]

/-- `handleRemoveLogItem` from src/context/AppContext.jsx: a falsy id is
rejected with the log unchanged; otherwise the log is filtered with
`item.id !== itemId`. -/
def handleRemoveLogItem (itemId : JSValue) (log : List LogItem) :
    List LogItem :=
  if jsFalsy itemId then log
  else log.filter (fun item => !(strictEq (.str item.id) itemId))

/-- Outcome of reading one localStorage slot at start-up, as observed by
`useLocalStorage` (src/hooks/useLocalStorage.js): the store may be
unavailable, the slot absent, its bytes undecodable as JSON, or decodable
to some value. -/
inductive StoredSlot (α : Type) : Type
  | unavailable : StoredSlot α
  | absent : StoredSlot α
  | corrupt : StoredSlot α
  | value : α → StoredSlot α
deriving DecidableEq, Repr

/-- The lazy state builder of `useLocalStorage`: every failure branch
falls back to the supplied default; a decoded value is returned as-is,
with no schema validation. -/
def useLocalStorageRead {α : Type} (slot : StoredSlot α)
    (initialValue : α) : α :=
  match slot with
  | .unavailable => initialValue
  | .absent => initialValue
  | .corrupt => initialValue
  | .value v => v

/-- Goal state at start-up: `useLocalStorage('fitnessAppGoal', 2000)`. -/
def initGoal (slot : StoredSlot JSValue) : JSValue :=
  useLocalStorageRead slot (.num (.fin 2000))

/-- Log state at start-up: `useLocalStorage('fitnessAppLog', [])`. -/
def initLog (slot : StoredSlot (List LogItem)) : List LogItem :=
  useLocalStorageRead slot []

/-- The provider state: the goal and the log. -/
structure AppState : Type where
  goal : JSValue
  log : List LogItem
deriving DecidableEq, Repr

/-- The state built by `AppProvider` from the two persisted slots. -/
def initState (goalSlot : StoredSlot JSValue)
    (logSlot : StoredSlot (List LogItem)) : AppState :=
  ⟨initGoal goalSlot, initLog logSlot⟩

/-- The spec's goal invariant: when the goal is present (non-null) it is a
number strictly greater than 0 in the JS ordering. -/
def goalInvariant : JSValue → Bool
  | .null => true
  | .num n => !n.isNaN && JNum.jlt (.fin 0) n
  | _ => false

/-- Acceptance condition of `addLogItem` as the code implements it: the
name is a string whose trim is non-empty, and the coerced calories are
neither NaN nor `< 0` (so `+Infinity` passes). -/
def addAccepts (name calories : JSValue) : Bool :=
  (match name with
    | .str s => !(jsTrim s == "")
    | _ => false)
  && !((toNumber calories).isNaN || JNum.jlt (toNumber calories) (.fin 0))

/-- The trimmed name when the name is a string, used to describe the
appended entry. -/
def jsTrimOrEmpty : JSValue → String
  | .str s => jsTrim s
  | _ => ""

/-! ## Helper lemmas -/

/-- Branch-by-branch description of `handleAddLogItem`. -/
theorem handleAddLogItem_eq (name calories : JSValue) (freshId : String)
    (log : List LogItem) :
    handleAddLogItem name calories freshId log =
      match name with
      | .null => .ok log
      | .undefined => .ok log
      | .str s =>
        if jsTrim s = "" then .ok log
        else if (toNumber calories).isNaN
            || JNum.jlt (toNumber calories) (.fin 0) then .ok log
        else .ok (log ++ [⟨freshId, jsTrim s, toNumber calories⟩])
      | _ => .error () := by
  cases name <;> rfl

/-- The guard of `handleSetGoal` in positive form: not NaN and `0 <`
coerced value, in the JS ordering. -/
theorem handleSetGoal_guard (n : JNum) :
    (n.isNaN || n.jle (.fin 0)) = !(!n.isNaN && JNum.jlt (.fin 0) n) := by
  cases n <;> simp [JNum.isNaN, JNum.jle, JNum.jlt]

/-! ## Claim theorems -/

/-- C1 counterexample: `setGoal(Infinity)` changes the goal (from 2000 to
`+Infinity`) although the coerced candidate is not a finite number, so the
store's acceptance is not equivalent to `isValidPositiveNumber` on the
coerced candidate. -/
theorem setGoal_infinity_cex :
    handleSetGoal (.num .posInf) (.num (.fin 2000)) = .num .posInf
    ∧ isValidPositiveNumber (.num (toNumber (.num .posInf))) = false
    ∧ JSValue.num JNum.posInf ≠ JSValue.num (JNum.fin 2000) := by
  decide

/-- C1 amended: `setGoal(g)` replaces the goal with the coerced candidate
exactly when the coerced candidate satisfies `isValidPositiveNumber` or is
`+Infinity`; every other candidate leaves the goal unchanged. -/
theorem setGoal_accepts_iff_validator_or_inf (g goal : JSValue) :
    handleSetGoal g goal =
      if isValidPositiveNumber (.num (toNumber g))
          || toNumber g == JNum.posInf
      then .num (toNumber g) else goal := by
  unfold handleSetGoal isValidPositiveNumber
  cases toNumber g with
  | nan => simp [JNum.isNaN]
  | posInf => simp [JNum.isNaN, JNum.jle, JNum.jlt, JNum.isFinite]
  | negInf => simp [JNum.isNaN, JNum.jle, JNum.jlt, JNum.isFinite]
  | fin q =>
    by_cases hq : 0 < q <;>
      simp [JNum.isNaN, JNum.jle, JNum.jlt, JNum.isFinite, hq]

/-- C8 counterexample: `setGoal(2.5)` is accepted and stores `2.5` itself,
which is not an integer, so a successful `setGoal` does not store the
integer coercion of the candidate. -/
theorem setGoal_fractional_cex :
    handleSetGoal (.num (.fin ((5 : ℚ)/2))) (.num (.fin 2000))
        = .num (.fin ((5 : ℚ)/2))
    ∧ JNum.isInteger (.fin ((5 : ℚ)/2)) = false := by
  constructor
  · simp [handleSetGoal, toNumber, JNum.isNaN, JNum.jle, JNum.jlt]
  · simp [JNum.isInteger]
    norm_num

/-- C8 amended: for every candidate that passes `setGoal`'s validation,
the stored goal is exactly the numeric coercion of the candidate (a
number, not necessarily an integer). -/
theorem setGoal_stores_coerced_number (g goal : JSValue)
    (h1 : (toNumber g).isNaN = false)
    (h2 : JNum.jle (toNumber g) (.fin 0) = false) :
    handleSetGoal g goal = .num (toNumber g) := by
  unfold handleSetGoal
  simp [h1, h2]

/-- Witness for `setGoal_stores_coerced_number` at the candidate string
`" 2500 "`. -/
theorem setGoal_stores_coerced_number_witness :
    handleSetGoal (.str " 2500 ") .null = .num (toNumber (.str " 2500 ")) :=
  setGoal_stores_coerced_number (.str " 2500 ") .null (by decide) (by decide)

/-- C2 counterexample: with `calories = Infinity` the guard passes (the
value is neither NaN nor negative) and an entry is appended, although the
coerced calories are not a finite number. -/
theorem addLogItem_infinite_calories_cex :
    handleAddLogItem (.str "Run") (.num .posInf) "id3" []
        = .ok [⟨"id3", "Run", .posInf⟩]
    ∧ JNum.isFinite .posInf = false :=
  ⟨rfl, rfl⟩

/-- C2 amended: `addLogItem` appends exactly one entry — at the end, with
the trimmed name and the coerced calories, all prior entries kept in
order — if and only if the name is a string trimming to non-empty and the
coerced calories are neither NaN nor negative (`+Infinity` is accepted);
otherwise the log is returned unchanged, or a TypeError is raised for a
non-string, non-nullish name. -/
theorem addLogItem_appends_iff (name calories : JSValue) (freshId : String)
    (log : List LogItem) :
    (handleAddLogItem name calories freshId log
        = .ok (log ++ [⟨freshId, jsTrimOrEmpty name, toNumber calories⟩])
      ↔ addAccepts name calories = true)
    ∧ (addAccepts name calories = false →
        handleAddLogItem name calories freshId log = .ok log
        ∨ handleAddLogItem name calories freshId log = .error ()) := by
  rw [handleAddLogItem_eq]
  cases name with
  | num n => simp [addAccepts]
  | bool b => simp [addAccepts]
  | null => simp [addAccepts]
  | undefined => simp [addAccepts]
  | str s =>
    by_cases h1 : jsTrim s = ""
    · simp [addAccepts, jsTrimOrEmpty, h1]
    · by_cases h2 : ((toNumber calories).isNaN
          || JNum.jlt (toNumber calories) (.fin 0)) = true
      · simp [addAccepts, jsTrimOrEmpty, h1, h2]
      · simp only [Bool.not_eq_true] at h2
        simp [addAccepts, jsTrimOrEmpty, h1, h2]

/-- Witness for `addLogItem_appends_iff`: adding `{name: " Nuts ",
calories: 0}` appends the trimmed entry at the end. -/
theorem addLogItem_appends_iff_witness :
    handleAddLogItem (.str " Nuts ") (.num (.fin 0)) "id4"
        [⟨"id0", "Tea", .fin 30⟩]
      = .ok [⟨"id0", "Tea", .fin 30⟩, ⟨"id4", "Nuts", .fin 0⟩] :=
  (addLogItem_appends_iff (.str " Nuts ") (.num (.fin 0)) "id4"
    [⟨"id0", "Tea", .fin 30⟩]).1.mpr (by decide)

/-- C6 counterexample: `addLogItem` with a non-string, non-nullish name
(here the number 42) raises a TypeError from `name?.trim()` instead of
returning normally. -/
theorem addLogItem_nonstring_name_throws_cex :
    handleAddLogItem (.num (.fin 42)) (.num (.fin 100)) "id5" []
      = .error () :=
  rfl

/-- C6 amended: a validation rejection is a no-op and is not raised, and
`addLogItem` returns normally whenever the name is a string, null or
undefined; `setGoal` and `removeLogItem` are embedded as total functions
because their JS bodies cannot throw on any argument of the fragment. -/
theorem addLogItem_ok_for_stringish_name (name calories : JSValue)
    (freshId : String) (log : List LogItem)
    (h : name = .null ∨ name = .undefined ∨ ∃ s, name = .str s) :
    ∃ l, handleAddLogItem name calories freshId log = .ok l := by
  rcases h with h | h | ⟨s, h⟩ <;> subst h
  · exact ⟨log, rfl⟩
  · exact ⟨log, rfl⟩
  · rw [handleAddLogItem_eq]
    by_cases h1 : jsTrim s = ""
    · exact ⟨log, by simp [h1]⟩
    · by_cases h2 : ((toNumber calories).isNaN
          || JNum.jlt (toNumber calories) (.fin 0)) = true
      · exact ⟨log, by simp [h1, h2]⟩
      · simp only [Bool.not_eq_true] at h2
        exact ⟨log ++ [⟨freshId, jsTrim s, toNumber calories⟩],
          by simp [h1, h2]⟩

/-- Witness for `addLogItem_ok_for_stringish_name` at a null name. -/
theorem addLogItem_ok_for_stringish_name_witness :
    ∃ l, handleAddLogItem .null (.num (.fin 1)) "id6" [] = .ok l :=
  addLogItem_ok_for_stringish_name .null (.num (.fin 1)) "id6" []
    (Or.inl rfl)

/-- C5 counterexample: on a log with two entries sharing id `"a"`,
`removeLogItem("a")` removes both of them (`filter` semantics), not just
the first, so the second entry is not left in place. -/
theorem removeLogItem_duplicate_cex :
    handleRemoveLogItem (.str "a")
        [⟨"a", "x", .fin 1⟩, ⟨"a", "y", .fin 2⟩] = []
    ∧ ([] : List LogItem) ≠ [⟨"a", "y", .fin 2⟩] := by
  decide

/-- C5 amended: for every truthy id, `removeLogItem` removes every entry
whose id strictly equals the given id — every non-matching entry survives,
only entries of the original log survive (matching ones do not), relative
order is preserved, and a log with no matching entry is unchanged. -/
theorem removeLogItem_filters_matches (itemId : JSValue)
    (log : List LogItem) (h : jsFalsy itemId = false) :
    (∀ e ∈ log, strictEq (.str e.id) itemId = false →
        e ∈ handleRemoveLogItem itemId log)
    ∧ (∀ e ∈ handleRemoveLogItem itemId log,
        e ∈ log ∧ strictEq (.str e.id) itemId = false)
    ∧ List.Sublist (handleRemoveLogItem itemId log) log
    ∧ ((∀ e ∈ log, strictEq (.str e.id) itemId = false) →
        handleRemoveLogItem itemId log = log) := by
  unfold handleRemoveLogItem
  rw [h]
  simp only [Bool.false_eq_true, if_false]
  refine ⟨?_, ?_, ?_, ?_⟩
  · intro e he hne
    exact List.mem_filter.mpr ⟨he, by simp [hne]⟩
  · intro e he
    rcases List.mem_filter.mp he with ⟨h1, h2⟩
    exact ⟨h1, by simpa using h2⟩
  · exact List.filter_sublist log
  · intro hall
    apply List.filter_eq_self.mpr
    intro e he
    simp [hall e he]

/-- Witness for `removeLogItem_filters_matches`: removing id `"a"` from a
two-entry log keeps the result a sublist of the log. -/
theorem removeLogItem_filters_matches_witness :
    List.Sublist
      (handleRemoveLogItem (.str "a")
        [⟨"a", "x", .fin 1⟩, ⟨"b", "y", .fin 2⟩])
      [⟨"a", "x", .fin 1⟩, ⟨"b", "y", .fin 2⟩] :=
  (removeLogItem_filters_matches (.str "a")
    [⟨"a", "x", .fin 1⟩, ⟨"b", "y", .fin 2⟩] (by decide)).2.2.1

/-- C9 confirmed: removing an id held by no entry leaves the log exactly
as it was, and doing it a second time leaves it unchanged still. -/
theorem removeLogItem_missing_id_idempotent (itemId : JSValue)
    (log : List LogItem)
    (h : ∀ e ∈ log, strictEq (.str e.id) itemId = false) :
    handleRemoveLogItem itemId log = log
    ∧ handleRemoveLogItem itemId (handleRemoveLogItem itemId log) = log := by
  have h1 : handleRemoveLogItem itemId log = log := by
    unfold handleRemoveLogItem
    by_cases hf : jsFalsy itemId = true
    · rw [hf]; simp
    · simp only [Bool.not_eq_true] at hf
      rw [hf]
      simp only [Bool.false_eq_true, if_false]
      apply List.filter_eq_self.mpr
      intro e he
      simp [h e he]
  exact ⟨h1, by rw [h1, h1]⟩

/-- Witness for `removeLogItem_missing_id_idempotent`: id `"z"` matches no
entry of a one-entry log. -/
theorem removeLogItem_missing_id_idempotent_witness :
    handleRemoveLogItem (.str "z") [⟨"a", "x", .fin 1⟩]
      = [⟨"a", "x", .fin 1⟩] :=
  (removeLogItem_missing_id_idempotent (.str "z") [⟨"a", "x", .fin 1⟩]
    (by decide)).1

/-- C10 confirmed: every falsy removal id — null, undefined, the empty
string, 0, false, NaN — is rejected with the log unchanged, and an entry
whose id is the empty string survives every `removeLogItem` call. -/
theorem removeLogItem_falsy_id_noop :
    (∀ (itemId : JSValue) (log : List LogItem), jsFalsy itemId = true →
        handleRemoveLogItem itemId log = log)
    ∧ (∀ (itemId : JSValue) (log : List LogItem) (e : LogItem),
        e ∈ log → e.id = "" → e ∈ handleRemoveLogItem itemId log) := by
  constructor
  · intro itemId log hf
    unfold handleRemoveLogItem
    rw [hf]
    simp
  · intro itemId log e he hid
    unfold handleRemoveLogItem
    by_cases hf : jsFalsy itemId = true
    · rw [hf]; simpa using he
    · simp only [Bool.not_eq_true] at hf
      rw [hf]
      simp only [Bool.false_eq_true, if_false]
      refine List.mem_filter.mpr ⟨he, ?_⟩
      have : strictEq (.str e.id) itemId = false := by
        rw [hid]
        cases itemId with
        | str t =>
          have ht : ¬ t = "" := by simpa [jsFalsy] using hf
          simp only [strictEq, beq_eq_false_iff_ne, ne_eq]
          exact fun hq => ht hq.symm
        | num n => cases n <;> rfl
        | bool b => rfl
        | null => rfl
        | undefined => rfl
      simp [this]

/-- Witness for `removeLogItem_falsy_id_noop`: the empty-string id leaves
a log holding an empty-id entry unchanged. -/
theorem removeLogItem_falsy_id_noop_witness :
    handleRemoveLogItem (.str "") [⟨"", "x", .fin 1⟩]
      = [⟨"", "x", .fin 1⟩] :=
  removeLogItem_falsy_id_noop.1 (.str "") [⟨"", "x", .fin 1⟩] (by decide)

/-- C4 confirmed: under the contract of `nanoid()` — the generated id is a
non-empty string held by no prior entry — any successful `addLogItem`
followed by `removeLogItem` with that id restores the prior log in content
and order (and a rejected add composed with the removal is also the prior
log). -/
theorem add_then_remove_roundtrip (name calories : JSValue)
    (freshId : String) (log l : List LogItem)
    (hid : freshId ≠ "")
    (hfresh : ∀ e ∈ log, e.id ≠ freshId)
    (h : handleAddLogItem name calories freshId log = .ok l) :
    handleRemoveLogItem (.str freshId) l = log := by
  have hfalsy : jsFalsy (.str freshId) = false := by simp [jsFalsy, hid]
  have hremove_log : handleRemoveLogItem (.str freshId) log = log := by
    unfold handleRemoveLogItem
    rw [hfalsy]
    simp only [Bool.false_eq_true, if_false]
    refine List.filter_eq_self.mpr (fun e he => ?_)
    simp [strictEq, hfresh e he]
  rw [handleAddLogItem_eq] at h
  cases name with
  | null =>
    obtain rfl := (Except.ok.injEq _ _).mp h
    exact hremove_log
  | undefined =>
    obtain rfl := (Except.ok.injEq _ _).mp h
    exact hremove_log
  | num n => simp at h
  | bool b => simp at h
  | str s =>
    replace h :
        (if jsTrim s = "" then Except.ok log
          else if ((toNumber calories).isNaN
              || JNum.jlt (toNumber calories) (.fin 0)) = true then
            Except.ok log
          else Except.ok
            (log ++ [⟨freshId, jsTrim s, toNumber calories⟩])) =
          Except.ok l := h
    by_cases h1 : jsTrim s = ""
    · rw [if_pos h1] at h
      obtain rfl := (Except.ok.injEq _ _).mp h
      exact hremove_log
    · rw [if_neg h1] at h
      by_cases h2 : ((toNumber calories).isNaN
          || JNum.jlt (toNumber calories) (.fin 0)) = true
      · rw [if_pos h2] at h
        obtain rfl := (Except.ok.injEq _ _).mp h
        exact hremove_log
      · rw [if_neg h2] at h
        obtain rfl := (Except.ok.injEq _ _).mp h
        unfold handleRemoveLogItem
        rw [hfalsy]
        simp only [Bool.false_eq_true, if_false]
        rw [List.filter_append]
        have hnew : List.filter
            (fun item : LogItem => !(strictEq (.str item.id) (.str freshId)))
            [⟨freshId, jsTrim s, toNumber calories⟩] = [] := by
          simp [strictEq]
        rw [hnew, List.append_nil]
        refine List.filter_eq_self.mpr (fun e he => ?_)
        simp [strictEq, hfresh e he]

/-- Witness for `add_then_remove_roundtrip`: adding `" Nuts "` with 180
calories under fresh id `"n1"` and then removing `"n1"` restores the
one-entry prior log. -/
theorem add_then_remove_roundtrip_witness :
    handleRemoveLogItem (.str "n1")
        [⟨"a0", "Tea", .fin 30⟩, ⟨"n1", "Nuts", .fin 180⟩]
      = [⟨"a0", "Tea", .fin 30⟩] :=
  add_then_remove_roundtrip (.str " Nuts ") (.num (.fin 180)) "n1"
    [⟨"a0", "Tea", .fin 30⟩]
    [⟨"a0", "Tea", .fin 30⟩, ⟨"n1", "Nuts", .fin 180⟩]
    (by decide) (by decide) rfl

/-- C3 counterexample: initializing the goal from a persisted slot that
decodes to `-5` yields a present (non-null) goal that is not greater than
0, so the invariant does not cover states produced by initialization from
arbitrary persisted data. -/
theorem goal_invariant_init_cex :
    goalInvariant (initGoal (.value (.num (.fin (-5))))) = false
    ∧ initGoal (.value (.num (.fin (-5)))) ≠ .null := by
  decide

/-- C3 amended: the default initialization satisfies the goal invariant,
and every `setGoal` call preserves it, so the invariant holds on every
state reachable from the defaults through the mutation operations; it is
initialization from unvalidated persisted data that can break it. -/
theorem goal_invariant_preserved :
    goalInvariant (initGoal .absent) = true
    ∧ ∀ (candidate g : JSValue), goalInvariant g = true →
        goalInvariant (handleSetGoal candidate g) = true := by
  have key : ∀ (n : JNum) (g : JSValue), goalInvariant g = true →
      goalInvariant (if n.isNaN || n.jle (.fin 0) then g else .num n)
        = true := by
    intro n g hg
    cases n with
    | nan => simpa [JNum.isNaN] using hg
    | posInf => simp [JNum.isNaN, JNum.jle, JNum.jlt, goalInvariant]
    | negInf => simpa [JNum.isNaN, JNum.jle, JNum.jlt] using hg
    | fin q =>
      by_cases hq : 0 < q
      · simp [JNum.isNaN, JNum.jle, JNum.jlt, hq, goalInvariant]
      · simpa [JNum.isNaN, JNum.jle, JNum.jlt, hq] using hg
  exact ⟨by decide, fun candidate g hg => key (toNumber candidate) g hg⟩

/-- Witness for `goal_invariant_preserved`: after `setGoal(2500)` on the
default state the invariant still holds. -/
theorem goal_invariant_preserved_witness :
    goalInvariant (handleSetGoal (.num (.fin 2500)) (initGoal .absent))
      = true :=
  goal_invariant_preserved.2 (.num (.fin 2500)) (initGoal .absent)
    (by decide)

/-- C7 confirmed: with both slots absent the state is goal 2000 and the
empty log; a corrupt goal slot falls back to 2000 with the log read
unaffected, and a corrupt log slot falls back to the empty list with the
goal read unaffected. -/
theorem init_defaults_and_slot_isolation :
    initState .absent .absent = ⟨.num (.fin 2000), []⟩
    ∧ (∀ logSlot : StoredSlot (List LogItem),
        (initState .corrupt logSlot).goal = .num (.fin 2000)
        ∧ (initState .corrupt logSlot).log = initLog logSlot)
    ∧ (∀ goalSlot : StoredSlot JSValue,
        (initState goalSlot .corrupt).log = []
        ∧ (initState goalSlot .corrupt).goal = initGoal goalSlot) :=
  ⟨rfl, fun _ => ⟨rfl, rfl⟩, fun _ => ⟨rfl, rfl⟩⟩
